import Mathlib

/-!
Verification development for the ncas-radar-wind-profiler-1 trw binary reader
(`read_wp.py`).  The definitions below are a shallow embedding of the byte-level
decoder: bytes are modelled as `List Nat` (each entry taken mod 256, as Python's
`bytes` guarantees values 0..255), IEEE-754 single-precision values are decoded
exactly into a sum type `F32` over `ℚ`, and the per-range-gate decoding loop is
modelled as a fuel-indexed recursion over an error monad `Except DecodeErr`.
-/

set_option maxHeartbeats 2000000
set_option maxRecDepth 16000

namespace WP

/-- An IEEE-754 binary32 value as produced by `bin_to_float32` in the source:
a finite value (exact, as a rational), a signed infinity, or NaN. -/
inductive F32 where
  | finite (q : ℚ) : F32
  | inf (negative : Bool) : F32
  | nan : F32
deriving DecidableEq

/-- One byte of the input buffer.  The source indexes a Python `bytes` object,
whose entries are always in 0..255; the `% 256` makes the model total. -/
def byteAt (b : List Nat) (i : Nat) : Nat := b.getD i 0 % 256

/-- Little-endian word of `n` bytes starting at position `p`.  The source builds
the same number by concatenating `decimalToBinary` strings with the byte at the
highest address first, i.e. byte `p` is least significant. -/
def wordLE : Nat → List Nat → Nat → Nat
  | 0, _, _ => 0
  | n+1, b, p => byteAt b p + 256 * wordLE n b (p+1)

/-- `bin_to_float32`: reinterpret a 32-bit word as an IEEE-754 single-precision
value (`struct.unpack('!f', struct.pack('!I', w))` in the source), decoded
exactly. -/
def bin_to_float32 (w : Nat) : F32 :=
  let w' : Nat := w % 2^32
  let s : Nat := w' / 2^31
  let e : Nat := w' / 2^23 % 2^8
  let m : Nat := w' % 2^23
  if e = 255 then
    if m = 0 then F32.inf (s == 1) else F32.nan
  else
    let sgn : ℤ := if s = 1 then -1 else 1
    if e = 0 then F32.finite (mkRat (sgn * (m : ℤ)) (2^149))
    else if 150 ≤ e then F32.finite (mkRat (sgn * ((2^23 + m : ℕ) : ℤ) * 2^(e - 150)) 1)
    else F32.finite (mkRat (sgn * ((2^23 + m : ℕ) : ℤ)) (2^(150 - e)))

/-- Signed 16-bit decode as the source performs it: the top bit of the 16-bit
binary string selects the sign and the remaining 15 bits are read as the
magnitude (`sign * int(bits[1:], 2)`). -/
def signed16 (w : Nat) : ℤ :=
  (if (w % 2^16) / 2^15 = 1 then -1 else 1) * ((w % 2^16) % 2^15 : ℕ)

/-- Signed 32-bit decode as the source performs it: sign bit plus 31-bit
magnitude (`sign * int(bits[1:], 2)`). -/
def signed32 (w : Nat) : ℤ :=
  (if (w % 2^32) / 2^31 = 1 then -1 else 1) * ((w % 2^32) % 2^31 : ℕ)

/-- The standard two's-complement reading of a 16-bit pattern, as the spec
describes signed decoding.  Used only to compare against `signed16`. -/
def twosComplement16 (w : Nat) : ℤ :=
  if w % 2^16 < 2^15 then ((w % 2^16 : ℕ) : ℤ) else ((w % 2^16 : ℕ) : ℤ) - 2^16

/-- The standard two's-complement reading of a 32-bit pattern. -/
def twosComplement32 (w : Nat) : ℤ :=
  if w % 2^32 < 2^31 then ((w % 2^32 : ℕ) : ℤ) else ((w % 2^32 : ℕ) : ℤ) - 2^32

/-- The sentinel substitution applied after each per-gate float read:
`if d1 == 999999: d1 = np.nan`.  IEEE equality against `999999` holds exactly
for the finite value `999999` (NaN and infinities compare unequal). -/
def sentinelMap (v : F32) : F32 :=
  if v = F32.finite 999999 then F32.nan else v

/-- Whether a value is the literal sentinel `999999` under IEEE equality. -/
def isSentF (v : F32) : Bool := decide (v = F32.finite 999999)

/-- Python comparison `v > q` for a float `v` against a finite bound: NaN
compares false, +inf true, -inf false. -/
def f32gt (v : F32) (q : ℚ) : Bool :=
  match v with
  | F32.finite x => decide (q < x)
  | F32.inf neg => !neg
  | F32.nan => false

/-- NaN test. -/
def f32IsNan : F32 → Bool
  | F32.nan => true
  | _ => false

/-- IEEE order on non-NaN values (used below only on non-NaN inputs). -/
def f32le (a b : F32) : Bool :=
  match a, b with
  | F32.inf true, _ => true
  | _, F32.inf true => false
  | _, F32.inf false => true
  | F32.inf false, _ => false
  | F32.finite x, F32.finite y => decide (x ≤ y)
  | F32.nan, _ => false
  | _, F32.nan => false

/-- Minimum of two non-NaN values. -/
def np_min2 (a b : F32) : F32 := if f32le a b then a else b

/-- `np.min` over a three-element array: NaN-propagating minimum. -/
def np_min3 (a b c : F32) : F32 :=
  if f32IsNan a || f32IsNan b || f32IsNan c then F32.nan
  else np_min2 (np_min2 a b) c

/-- Per-beam quality flag from a raw validation code, as in the source: the raw
code is first sentinel-substituted (`999999 → nan`), then compared to `1`; the
flag is `1` on equality and `3` otherwise. -/
def qc_flag_of_validation (c : ℤ) : ℤ :=
  if (if c = 999999 then (none : Option ℤ) else some c) = some 1 then 1 else 3

/-- The overall wind flag formula `1 if dshort == 1 else 3` from the source. -/
def qc_flag_wind_of (dshort : ℤ) : ℤ := if dshort = 1 then 1 else 3

/-- The thirteen format revisions known to the reader (the instrument software
versions assigned to `operational_software_version`). -/
inductive Rev where
  | v12 | v20 | v21 | v22 | v331 | v534 | v536 | v537 | v539 | v543 | v545 | v747 | v749
deriving DecidableEq, Fintype

/-- The revision string assigned to `operational_software_version`. -/
def revString : Rev → String
  | .v12 => "1.2" | .v20 => "2.0" | .v21 => "2.1" | .v22 => "2.2"
  | .v331 => "3.31" | .v534 => "5.34" | .v536 => "5.36" | .v537 => "5.37"
  | .v539 => "5.39" | .v543 => "5.43" | .v545 => "5.45" | .v747 => "7.47"
  | .v749 => "7.49"

/-- `program_version_no = float(operational_software_version)`, scaled by 100
to an integer (1.2 ↦ 120, ..., 7.49 ↦ 749).  Every revision comparison in the
source is between short decimal floats whose values are multiples of 1/100, so
their orderings and equalities agree exactly with these scaled integers (all
thresholds used by the source - 1.2, 2.0, 2.1, 2.2, 3.0, 3.1, 5.34, 5.36,
5.39, 5.43, 5.45, 100 - are likewise scaled by 100 below). -/
def pv100 : Rev → Nat
  | .v12 => 120 | .v20 => 200 | .v21 => 210 | .v22 => 220
  | .v331 => 331 | .v534 => 534 | .v536 => 536 | .v537 => 537
  | .v539 => 539 | .v543 => 543 | .v545 => 545 | .v747 => 747
  | .v749 => 749

/-- The negated marker the source maps to each revision. -/
def markerOf : Rev → Nat
  | .v12 => 5 | .v20 => 6 | .v21 => 7 | .v22 => 8
  | .v331 => 10 | .v534 => 11 | .v536 => 13 | .v537 => 14
  | .v539 => 16 | .v543 => 19 | .v545 => 21 | .v747 => 22
  | .v749 => 24

/-- The thirteen known negated markers, in source order. -/
def knownMarkers : List Nat := [5, 6, 7, 8, 10, 11, 13, 14, 16, 19, 21, 22, 24]

/-- All thirteen revisions, in source order. -/
def allRevs : List Rev :=
  [.v12, .v20, .v21, .v22, .v331, .v534, .v536, .v537, .v539, .v543, .v545, .v747, .v749]

/-- The `if convert_version_no_uint == 5: ... elif ...` chain assigning
`operational_software_version`; `none` models the marker falling through every
branch (the variable is then unbound and the decode raises). -/
def resolveRev (m : Nat) : Option Rev :=
  if m = 5 then some .v12
  else if m = 6 then some .v20
  else if m = 7 then some .v21
  else if m = 8 then some .v22
  else if m = 10 then some .v331
  else if m = 11 then some .v534
  else if m = 13 then some .v536
  else if m = 14 then some .v537
  else if m = 16 then some .v539
  else if m = 19 then some .v543
  else if m = 21 then some .v545
  else if m = 22 then some .v747
  else if m = 24 then some .v749
  else none

/-- Decode errors surfaced by the reader.  The source raises Python exceptions;
`outOfRange` carries the field name, offending value and violated bound that the
`ValueError` message interpolates, `unbound` models the `NameError` from using a
never-assigned variable, and `truncated` models the `IndexError` from indexing
past the end of the buffer. -/
inductive DecodeErr where
  | truncated : DecodeErr
  | unknownRevision (marker : Nat) : DecodeErr
  | outOfRange (field : String) (value : F32) (bound : ℚ) : DecodeErr
  | unbound (name : String) : DecodeErr
deriving DecidableEq

/-- Revision resolution as a fallible step: an unrecognized marker leaves
`operational_software_version` unbound, so `float(operational_software_version)`
raises and the decode returns nothing. -/
def resolveRevE (m : Nat) : Except DecodeErr Rev :=
  match resolveRev m with
  | some r => Except.ok r
  | none => Except.error (DecodeErr.unknownRevision m)

/-- `version_no`: the 16-bit little-endian marker at bytes 8-9 of the preamble
(byte 9 is the high byte in the source's string concatenation). -/
def version_no (b : List Nat) : Nat := wordLE 2 b 8

/-- `np.uint16(-1 * version_no)`: negation as an unsigned 16-bit value. -/
def convert_version_no_uint (v : Nat) : Nat := (2^16 - v % 2^16) % 2^16

/-! ### The per-range-gate decoding loop

The loop body is a fixed sequence of byte accesses (reads) and pure position
jumps (skips), interleaved with two in-loop validity checks.  The access
pattern is captured as a list of operations; reading a run of `n` consecutive
bytes fails with `truncated` exactly when the run extends past the end of the
buffer, matching the `IndexError` of the sequential reads in the source. -/

/-- One step of the byte cursor: read (access) `n` bytes, or jump `n` bytes
without accessing them (`read_pos += n` in the source). -/
inductive Op where
  | readB (n : Nat) : Op
  | skipB (n : Nat) : Op
deriving DecidableEq

/-- Bytes consumed by an operation. -/
def opSize : Op → Nat
  | .readB n => n
  | .skipB n => n

/-- Total cursor advance of a list of operations. -/
def sizeOps (ops : List Op) : Nat := (ops.map opSize).sum

/-- Run a list of cursor operations over the buffer from position `p`,
failing with `truncated` at the first read that extends past the buffer. -/
def runOps : List Op → List Nat → Nat → Except DecodeErr Nat
  | [], _, p => Except.ok p
  | Op.readB n :: rest, b, p =>
    if p + n ≤ b.length then runOps rest b (p + n) else Except.error DecodeErr.truncated
  | Op.skipB n :: rest, b, p => runOps rest b (p + n)

/-- An operation list is `tight` when its final operation is a read: running it
successfully then guarantees the buffer covers every implied byte. -/
def tightOps : List Op → Bool
  | [] => false
  | [Op.readB _] => true
  | [Op.skipB _] => false
  | _ :: rest => tightOps rest

/-- Access pattern of the unconditional head of a gate record and the
variance/statistics block: 16 floats (three velocity components, the colour
word, per-beam radial velocity, width, signal and noise), then with
`variance_test` 48 further floats, else a 192-byte jump for revisions ≥ 2.2;
then three validation codes, three SNR floats and the overall validation
code. -/
def a1ops (vt : Bool) (r : Rev) : List Op :=
  [Op.readB 64] ++
  (if vt then [Op.readB 192]
   else if 220 ≤ pv100 r then [Op.skipB 192] else []) ++
  [Op.readB 12, Op.readB 12, Op.readB 4]

/-- Access pattern of the consensus-parameter block read for revisions above
1.2: `m_dureeTraitment` (float for revisions above 3.0, signed 16-bit
otherwise), `m_DecalageTraitment`, `dShort` (above 5.34 only) and
`m_fLargeurFen`. -/
def a2ops (r : Rev) : List Op :=
  if 120 < pv100 r then
    [Op.readB ((if 300 < pv100 r then 4 else 2) + 2 +
      (if 534 < pv100 r then 2 else 0) + 4)]
  else []

/-- Access pattern of the revision-gated tail of a gate record: the three
`m_fDuree_Measure` floats (above 2.1), the consensus/shear/turbulence/epsilon
block (above 5.34), the `qc_override` word plus a 2-byte jump (above 2.0),
the five-beam block (12 floats from 5.45, 8 floats from 5.36), the
corrected-velocity block (18 floats from 5.43) and the display-colour floats
(above 5.45). -/
def trailOps (r : Rev) : List Op :=
  (if 210 < pv100 r then [Op.readB 12] else []) ++
  (if 534 < pv100 r then [Op.readB 24] else []) ++
  (if 200 < pv100 r then [Op.readB 2, Op.skipB 2] else []) ++
  (if 545 ≤ pv100 r then [Op.readB 48]
   else if 536 ≤ pv100 r then [Op.readB 32] else []) ++
  (if 543 ≤ pv100 r then [Op.readB 72] else []) ++
  (if 545 < pv100 r then [Op.readB 12] else [])

/-- Total bytes of one gate record for a revision (the record size implied per
gate by `no_heights`). -/
def gateSize (r : Rev) (vt : Bool) : Nat :=
  sizeOps (a1ops vt r) + sizeOps (a2ops r) + sizeOps (trailOps r)

/-- Float at position `p`. -/
def rdF32at (b : List Nat) (p : Nat) : F32 := bin_to_float32 (wordLE 4 b p)

/-- Signed 32-bit value at position `p` (sign-and-magnitude, as the source). -/
def rdI32at (b : List Nat) (p : Nat) : ℤ := signed32 (wordLE 4 b p)

/-- Signed 16-bit value at position `p` (sign-and-magnitude, as the source). -/
def rdI16at (b : List Nat) (p : Nat) : ℤ := signed16 (wordLE 2 b p)

/-- `n` consecutive floats starting at position `p`. -/
def f32Block (b : List Nat) : Nat → Nat → List F32
  | _, 0 => []
  | p, n+1 => rdF32at b p :: f32Block b (p+4) n

/-- Cursor advance of the variance/statistics block. -/
def varAdvance (vt : Bool) (r : Rev) : Nat :=
  if vt then 192 else if 220 ≤ pv100 r then 192 else 0

/-- Raw values of the head of a gate record (before sentinel substitution). -/
structure RawA1 where
  uE : F32
  vN : F32
  wV : F32
  ascii : F32
  rv1 : F32
  rv2 : F32
  rv3 : F32
  w1 : F32
  w2 : F32
  w3 : F32
  s1 : F32
  s2 : F32
  s3 : F32
  n1 : F32
  n2 : F32
  n3 : F32
  varianceRaw : List F32
  val1 : ℤ
  val2 : ℤ
  val3 : ℤ
  snr1 : F32
  snr2 : F32
  snr3 : F32
  oval : ℤ
deriving DecidableEq

/-- Extract the head values of a gate record whose bytes start at `p` (the
offsets follow the sequential reads of the source). -/
def extractA1 (vt : Bool) (r : Rev) (b : List Nat) (p : Nat) : RawA1 :=
  let q : Nat := p + 64 + varAdvance vt r
  { uE := rdF32at b p, vN := rdF32at b (p+4), wV := rdF32at b (p+8)
    ascii := rdF32at b (p+12)
    rv1 := rdF32at b (p+16), rv2 := rdF32at b (p+20), rv3 := rdF32at b (p+24)
    w1 := rdF32at b (p+28), w2 := rdF32at b (p+32), w3 := rdF32at b (p+36)
    s1 := rdF32at b (p+40), s2 := rdF32at b (p+44), s3 := rdF32at b (p+48)
    n1 := rdF32at b (p+52), n2 := rdF32at b (p+56), n3 := rdF32at b (p+60)
    varianceRaw := if vt then f32Block b (p+64) 48 else []
    val1 := rdI32at b q, val2 := rdI32at b (q+4), val3 := rdI32at b (q+8)
    snr1 := rdF32at b (q+12), snr2 := rdF32at b (q+16), snr3 := rdF32at b (q+20)
    oval := rdI32at b (q+24) }

/-- Raw values of the consensus-parameter block; the fields are `none` for
revisions whose layout does not contain them (the source then never binds the
corresponding variables). -/
structure RawA2 where
  duree : Option F32
  decal : Option ℤ
  dShortV : Option ℤ
deriving DecidableEq

/-- Extract the consensus-parameter block starting at `p`. -/
def extractA2 (r : Rev) (b : List Nat) (p : Nat) : RawA2 :=
  if 120 < pv100 r then
    { duree := some (if 300 < pv100 r then rdF32at b p else F32.finite (rdI16at b p))
      decal := some (rdI16at b (p + (if 300 < pv100 r then 4 else 2)))
      dShortV := if 534 < pv100 r then
          some (rdI16at b (p + (if 300 < pv100 r then 4 else 2) + 2)) else none }
  else { duree := none, decal := none, dShortV := none }

/-- The in-loop validity checks of the source (lines 1559-1567): the consensus
duration must not exceed 120 and the update rate must lie in [0, 60]; a
violation raises a `ValueError` naming the field, its value and the bound. -/
def checkTraitment (duree : Option F32) (decal : Option ℤ) : Except DecodeErr Unit :=
  match duree, decal with
  | some du, some de =>
    if f32gt du 120 then
      Except.error (DecodeErr.outOfRange "m_dureeTraitment" du 120)
    else if de < 0 then
      Except.error (DecodeErr.outOfRange "m_DecalageTraitment" (F32.finite (de : ℚ)) 0)
    else if 60 < de then
      Except.error (DecodeErr.outOfRange "m_DecalageTraitment" (F32.finite (de : ℚ)) 60)
    else Except.ok ()
  | _, _ => Except.ok ()

/-- One decoded range gate, as stored into the per-gate arrays of the source. -/
structure Gate where
  uEast : F32
  vNorth : F32
  wVert : F32
  asciiColour : F32
  radial1 : F32
  radial2 : F32
  radial3 : F32
  width1 : F32
  width2 : F32
  width3 : F32
  widthMin : F32
  signal1 : F32
  signal2 : F32
  signal3 : F32
  noise1 : F32
  noise2 : F32
  noise3 : F32
  variance : List F32
  validation1 : ℤ
  validation2 : ℤ
  validation3 : ℤ
  qcFlagBeam1 : ℤ
  qcFlagBeam2 : ℤ
  qcFlagBeam3 : ℤ
  snr1 : F32
  snr2 : F32
  snr3 : F32
  snrMin : F32
  overallValidation : ℤ
  qcFlagWind : ℤ
  duree : Option F32
  decalage : Option ℤ
  dShortV : Option ℤ
deriving DecidableEq

/-- Assemble the stored gate from the raw reads: sentinel substitution on every
measurement float, the NaN-propagating minima, the per-beam quality flags from
the raw validation codes, and the overall wind flag from the loop-level
lowercase `dshort` variable. -/
def mkGate (dshort : ℤ) (a1 : RawA1) (a2 : RawA2) : Gate :=
  { uEast := sentinelMap a1.uE, vNorth := sentinelMap a1.vN, wVert := sentinelMap a1.wV
    asciiColour := sentinelMap a1.ascii
    radial1 := sentinelMap a1.rv1, radial2 := sentinelMap a1.rv2, radial3 := sentinelMap a1.rv3
    width1 := sentinelMap a1.w1, width2 := sentinelMap a1.w2, width3 := sentinelMap a1.w3
    widthMin := np_min3 (sentinelMap a1.w1) (sentinelMap a1.w2) (sentinelMap a1.w3)
    signal1 := sentinelMap a1.s1, signal2 := sentinelMap a1.s2, signal3 := sentinelMap a1.s3
    noise1 := sentinelMap a1.n1, noise2 := sentinelMap a1.n2, noise3 := sentinelMap a1.n3
    variance := a1.varianceRaw.map sentinelMap
    validation1 := a1.val1, validation2 := a1.val2, validation3 := a1.val3
    qcFlagBeam1 := qc_flag_of_validation a1.val1
    qcFlagBeam2 := qc_flag_of_validation a1.val2
    qcFlagBeam3 := qc_flag_of_validation a1.val3
    snr1 := sentinelMap a1.snr1, snr2 := sentinelMap a1.snr2, snr3 := sentinelMap a1.snr3
    snrMin := np_min3 (sentinelMap a1.snr1) (sentinelMap a1.snr2) (sentinelMap a1.snr3)
    overallValidation := a1.oval
    qcFlagWind := qc_flag_wind_of dshort
    duree := a2.duree, decalage := a2.decal, dShortV := a2.dShortV }

/-- Decode one gate record at position `p`: run the head and consensus reads,
apply the in-loop validity checks at their source position (before the tail
reads), then run the tail reads. -/
def decodeGate (r : Rev) (vt : Bool) (dshort : ℤ) (b : List Nat) (p : Nat) :
    Except DecodeErr (Gate × Nat) :=
  match runOps (a1ops vt r ++ a2ops r) b p with
  | Except.error e => Except.error e
  | Except.ok p2 =>
    match checkTraitment (extractA2 r b (p + sizeOps (a1ops vt r))).duree
        (extractA2 r b (p + sizeOps (a1ops vt r))).decal with
    | Except.error e => Except.error e
    | Except.ok _ =>
      match runOps (trailOps r) b p2 with
      | Except.error e => Except.error e
      | Except.ok p3 =>
        Except.ok (mkGate dshort (extractA1 vt r b p)
          (extractA2 r b (p + sizeOps (a1ops vt r))), p3)

/-- Decode `n` consecutive gate records (`for k in range(no_heights)`). -/
def decodeGates (r : Rev) (vt : Bool) (dshort : ℤ) (b : List Nat) :
    Nat → Nat → Except DecodeErr (List Gate × Nat)
  | 0, p => Except.ok ([], p)
  | n+1, p =>
    match decodeGate r vt dshort b p with
    | Except.error e => Except.error e
    | Except.ok (g, p') =>
      match decodeGates r vt dshort b n p' with
      | Except.error e => Except.error e
      | Except.ok (gs, pe) => Except.ok (g :: gs, pe)

/-- The decoded profile as far as the claims are concerned: the gate array and
the derived rain flag assembled into the returned mapping. -/
structure Profile where
  gates : List Gate
  qcFlagRainDetected : ℤ
deriving DecidableEq

/-- Decode a whole profile: run the gate loop with the loop-level `dshort`
variable initialized to 0 (and never reassigned), then assemble the returned
mapping.  `rain_detection` is bound during header decoding only when the
program version is at least 2.0, at least 3.1 and above 5.43; the mapping entry
`qc_flag_rain_detected = rain_detection + 1` otherwise raises a `NameError`,
so no result is returned. -/
def decodeProfile (r : Rev) (vt : Bool) (b : List Nat) (p : Nat) (noHeights : Nat)
    (rainDetection : ℤ) : Except DecodeErr Profile :=
  match decodeGates r vt 0 b noHeights p with
  | Except.error e => Except.error e
  | Except.ok (gs, _) =>
    match (if 200 ≤ pv100 r ∧ 310 ≤ pv100 r ∧ 543 < pv100 r
           then some rainDetection else none) with
    | none => Except.error (DecodeErr.unbound "rain_detection")
    | some rv => Except.ok { gates := gs, qcFlagRainDetected := rv + 1 }

/-- Whether a decode produced a result. -/
def isOkE {α : Type} : Except DecodeErr α → Bool
  | Except.ok _ => true
  | Except.error _ => false

/-! ### Derived wind quantities

The source computes, with both components non-missing,
`wp_winddir[k] = np.arctan(-u / -v) * (180/np.pi)`, adds 360 if negative, adds a
further 180 when `u > 0 and v > 0 and wp_winddir[k] < 90`, and
`wp_windspeed[k] = ((u ** 2) + (v ** 2)) ** 0.5`.  The floating-point
arithmetic is abstracted to exact real arithmetic; the case `v = 0` (a
division by zero the spec leaves as an open question) is outside this model,
whose division convention differs from IEEE there. -/

/-- Stored wind direction formula of the source (real-number abstraction). -/
noncomputable def wp_winddir (u v : ℝ) : ℝ :=
  let d0 := Real.arctan (-u / -v) * (180 / Real.pi)
  let d1 := if d0 < 0 then d0 + 360 else d0
  if 0 < u ∧ 0 < v ∧ d1 < 90 then d1 + 180 else d1

/-- Stored wind speed formula of the source (real-number abstraction of
`((u ** 2) + (v ** 2)) ** 0.5`). -/
noncomputable def wp_windspeed (u v : ℝ) : ℝ := (u ^ 2 + v ^ 2) ^ (0.5 : ℝ)

/-- The wind-direction formula exactly as the specification words it: the
`atan(-u / -v)` angle in degrees, plus 360 if that angle is negative, plus a
further 180 exactly when `u>0` and `v>0` and the direction computed so far is
below 90 degrees. -/
noncomputable def winddirClaim (u v : ℝ) : ℝ :=
  let angle := Real.arctan (-u / -v) * (180 / Real.pi)
  let shifted := if angle < 0 then angle + 360 else angle
  if 0 < u ∧ 0 < v ∧ shifted < 90 then shifted + 180 else shifted

/-! ### Boolean per-gate properties used by the claims -/

/-- No stored measurement field of a gate is the literal sentinel `999999`. -/
def gateNoSentinel (g : Gate) : Bool :=
  !isSentF g.uEast && !isSentF g.vNorth && !isSentF g.wVert &&
  !isSentF g.asciiColour &&
  !isSentF g.radial1 && !isSentF g.radial2 && !isSentF g.radial3 &&
  !isSentF g.width1 && !isSentF g.width2 && !isSentF g.width3 &&
  !isSentF g.widthMin &&
  !isSentF g.signal1 && !isSentF g.signal2 && !isSentF g.signal3 &&
  !isSentF g.noise1 && !isSentF g.noise2 && !isSentF g.noise3 &&
  g.variance.all (fun v => !isSentF v) &&
  !isSentF g.snr1 && !isSentF g.snr2 && !isSentF g.snr3 && !isSentF g.snrMin

/-- A beam's quality flag is 1 exactly when its raw validation code is 1, is
otherwise 3, and is never 2. -/
def beamFlagOK (flag code : ℤ) : Bool :=
  ((flag == 1) == (code == 1)) && (flag == 1 || flag == 3) && !(flag == 2)

/-- All three per-beam quality flags of a gate satisfy `beamFlagOK`. -/
def gateFlagsOK (g : Gate) : Bool :=
  beamFlagOK g.qcFlagBeam1 g.validation1 &&
  beamFlagOK g.qcFlagBeam2 g.validation2 &&
  beamFlagOK g.qcFlagBeam3 g.validation3

/-- The consensus parameters stored in a gate satisfy the source's validity
bounds (when the revision's layout contains them). -/
def traitmentOKB (duree : Option F32) (decal : Option ℤ) : Bool :=
  match duree, decal with
  | some du, some de => !f32gt du 120 && decide (0 ≤ de) && decide (de ≤ 60)
  | _, _ => true

/-- `traitmentOKB` on the fields stored in a gate. -/
def gateTraitmentOK (g : Gate) : Bool := traitmentOKB g.duree g.decalage

/-! ### A concrete successful decode (revision 7.49, one gate, all-zero bytes) -/

/-- A 468-byte all-zero buffer: exactly one gate record for revision 7.49. -/
def demoBuf : List Nat := List.replicate 468 0

/-- The gate decoded from `demoBuf`. -/
def demoGate : Gate :=
  mkGate 0 (extractA1 true Rev.v749 demoBuf 0)
    (extractA2 Rev.v749 demoBuf (0 + sizeOps (a1ops true Rev.v749)))

/-- The profile decoded from `demoBuf`. -/
def demoProf : Profile := { gates := [demoGate], qcFlagRainDetected := 1 }

/-! ### Cursor lemmas -/

theorem sizeOps_cons (a : Op) (l : List Op) : sizeOps (a :: l) = opSize a + sizeOps l := by
  simp [sizeOps]

theorem runOps_pos : ∀ {ops : List Op} {b : List Nat} {p q : Nat},
    runOps ops b p = Except.ok q → q = p + sizeOps ops := by
  intro ops
  induction ops with
  | nil =>
    intro b p q h
    simp [runOps] at h
    simp [sizeOps, ← h]
  | cons a rest ih =>
    intro b p q h
    cases a with
    | readB n =>
      simp only [runOps] at h
      split at h
      · have hq := ih h
        rw [hq, sizeOps_cons]
        simp [opSize]
        omega
      · simp at h
    | skipB n =>
      simp only [runOps] at h
      have hq := ih h
      rw [hq, sizeOps_cons]
      simp [opSize]
      omega

theorem runOps_le : ∀ {ops : List Op} {b : List Nat} {p q : Nat},
    tightOps ops = true → runOps ops b p = Except.ok q → p + sizeOps ops ≤ b.length := by
  intro ops
  induction ops with
  | nil => intro b p q ht _; simp [tightOps] at ht
  | cons a rest ih =>
    intro b p q ht h
    cases rest with
    | nil =>
      cases a with
      | readB n =>
        simp only [runOps] at h
        split at h
        · rename_i hle
          simpa [sizeOps, opSize] using hle
        · simp at h
      | skipB n => simp [tightOps] at ht
    | cons a2 rest2 =>
      have ht' : tightOps (a2 :: rest2) = true := by
        cases a <;> simpa [tightOps] using ht
      cases a with
      | readB n =>
        simp only [runOps] at h
        split at h
        · have := ih ht' h
          rw [sizeOps_cons]
          simp only [opSize]
          omega
        · simp at h
      | skipB n =>
        simp only [runOps] at h
        have := ih ht' h
        rw [sizeOps_cons]
        simp only [opSize]
        omega

/-! ### Gate-level lemmas -/

theorem decodeGate_ok {r : Rev} {vt : Bool} {dshort : ℤ} {b : List Nat} {p : Nat}
    {g : Gate} {p' : Nat} (h : decodeGate r vt dshort b p = Except.ok (g, p')) :
    p' = p + gateSize r vt ∧
    g = mkGate dshort (extractA1 vt r b p)
      (extractA2 r b (p + sizeOps (a1ops vt r))) ∧
    checkTraitment (extractA2 r b (p + sizeOps (a1ops vt r))).duree
      (extractA2 r b (p + sizeOps (a1ops vt r))).decal = Except.ok () ∧
    (tightOps (trailOps r) = true → p + gateSize r vt ≤ b.length) := by
  unfold decodeGate at h
  cases hA : runOps (a1ops vt r ++ a2ops r) b p with
  | error e => simp [hA] at h
  | ok p2 =>
    simp only [hA] at h
    cases hC : checkTraitment (extractA2 r b (p + sizeOps (a1ops vt r))).duree
        (extractA2 r b (p + sizeOps (a1ops vt r))).decal with
    | error e => simp [hC] at h
    | ok u =>
      cases u
      simp only [hC] at h
      cases hT : runOps (trailOps r) b p2 with
      | error e => simp [hT] at h
      | ok p3 =>
        simp only [hT, Except.ok.injEq, Prod.mk.injEq] at h
        obtain ⟨hg, hp3⟩ := h
        have hp2 : p2 = p + (sizeOps (a1ops vt r) + sizeOps (a2ops r)) := by
          have := runOps_pos hA
          simpa [sizeOps] using this
        have hpos : p' = p + gateSize r vt := by
          have h3 := runOps_pos hT
          rw [← hp3, h3, hp2, gateSize]
          omega
        refine ⟨hpos, hg.symm, rfl, ?_⟩
        intro ht
        have := runOps_le ht hT
        rw [hp2] at this
        rw [gateSize]
        omega

theorem decodeGates_ok {r : Rev} {vt : Bool} {dshort : ℤ} {b : List Nat} :
    ∀ {n p : Nat} {gs : List Gate} {pe : Nat},
    decodeGates r vt dshort b n p = Except.ok (gs, pe) →
    gs.length = n ∧ pe = p + n * gateSize r vt ∧
    (tightOps (trailOps r) = true → 0 < n → p + n * gateSize r vt ≤ b.length) := by
  intro n
  induction n with
  | zero =>
    intro p gs pe h
    simp only [decodeGates, Except.ok.injEq, Prod.mk.injEq] at h
    obtain ⟨h1, h2⟩ := h
    simp [← h1, ← h2]
  | succ n ih =>
    intro p gs pe h
    simp only [decodeGates] at h
    cases hG : decodeGate r vt dshort b p with
    | error e => simp [hG] at h
    | ok gp =>
      obtain ⟨g, p'⟩ := gp
      simp only [hG] at h
      cases hR : decodeGates r vt dshort b n p' with
      | error e => simp [hR] at h
      | ok gspe =>
        obtain ⟨gs', pe'⟩ := gspe
        simp only [hR, Except.ok.injEq, Prod.mk.injEq] at h
        obtain ⟨hgs, hpe⟩ := h
        obtain ⟨hp', _, _, htight⟩ := decodeGate_ok hG
        obtain ⟨hlen, hpe', htight'⟩ := ih hR
        refine ⟨by simp [← hgs, hlen], ?_, ?_⟩
        · rw [← hpe, hpe', hp', Nat.succ_mul]
          ring
        · intro ht _
          cases n with
          | zero =>
            have := htight ht
            simpa using this
          | succ m =>
            have hb := htight' ht (Nat.succ_pos m)
            have heq : p + (m + 1 + 1) * gateSize r vt = p' + (m + 1) * gateSize r vt := by
              rw [hp']; ring
            rw [heq]
            exact hb

theorem decodeGates_all {P : Gate → Bool} {r : Rev} {vt : Bool} {dshort : ℤ} {b : List Nat}
    (hP : ∀ q gg q', decodeGate r vt dshort b q = Except.ok (gg, q') → P gg = true) :
    ∀ {n p : Nat} {gs : List Gate} {pe : Nat},
    decodeGates r vt dshort b n p = Except.ok (gs, pe) → gs.all P = true := by
  intro n
  induction n with
  | zero =>
    intro p gs pe h
    simp only [decodeGates, Except.ok.injEq, Prod.mk.injEq] at h
    simp [← h.1]
  | succ n ih =>
    intro p gs pe h
    simp only [decodeGates] at h
    cases hG : decodeGate r vt dshort b p with
    | error e => simp [hG] at h
    | ok gp =>
      obtain ⟨g, p'⟩ := gp
      simp only [hG] at h
      cases hR : decodeGates r vt dshort b n p' with
      | error e => simp [hR] at h
      | ok gspe =>
        obtain ⟨gs', pe'⟩ := gspe
        simp only [hR, Except.ok.injEq, Prod.mk.injEq] at h
        obtain ⟨hgs, _⟩ := h
        have h1 := hP _ _ _ hG
        have h2 := ih hR
        simp [← hgs, List.all_cons, h1, h2]

/-! ### Value lemmas -/

theorem isSentF_sentinelMap (v : F32) : isSentF (sentinelMap v) = false := by
  unfold sentinelMap isSentF
  split
  · decide
  · rename_i hne
    exact decide_eq_false hne

theorem np_min2_cases (a b : F32) : np_min2 a b = a ∨ np_min2 a b = b := by
  unfold np_min2
  split
  · exact Or.inl rfl
  · exact Or.inr rfl

theorem np_min3_cases (a b c : F32) :
    np_min3 a b c = F32.nan ∨ np_min3 a b c = a ∨ np_min3 a b c = b ∨ np_min3 a b c = c := by
  unfold np_min3
  split
  · exact Or.inl rfl
  · rcases np_min2_cases (np_min2 a b) c with h | h
    · rcases np_min2_cases a b with h2 | h2
      · rw [h, h2]; tauto
      · rw [h, h2]; tauto
    · rw [h]; tauto

theorem np_min3_not_sent {a b c : F32} (ha : isSentF a = false) (hb : isSentF b = false)
    (hc : isSentF c = false) : isSentF (np_min3 a b c) = false := by
  rcases np_min3_cases a b c with h | h | h | h <;> rw [h]
  · decide
  · exact ha
  · exact hb
  · exact hc

theorem qc_flag_spec (c : ℤ) : qc_flag_of_validation c = if c = 1 then 1 else 3 := by
  unfold qc_flag_of_validation
  by_cases hc : c = 999999
  · subst hc
    simp
  · simp [hc]

theorem beamFlagOK_of_validation (c : ℤ) : beamFlagOK (qc_flag_of_validation c) c = true := by
  rw [qc_flag_spec]
  by_cases h : c = 1 <;> simp [beamFlagOK, h]

theorem mkGate_noSentinel (dshort : ℤ) (a1 : RawA1) (a2 : RawA2) :
    gateNoSentinel (mkGate dshort a1 a2) = true := by
  unfold gateNoSentinel mkGate
  simp [isSentF_sentinelMap, np_min3_not_sent, List.all_map, Function.comp]

theorem mkGate_flagsOK (dshort : ℤ) (a1 : RawA1) (a2 : RawA2) :
    gateFlagsOK (mkGate dshort a1 a2) = true := by
  unfold gateFlagsOK mkGate
  simp [beamFlagOK_of_validation]

theorem checkTraitment_ok_iff {du : Option F32} {de : Option ℤ}
    (h : checkTraitment du de = Except.ok ()) : traitmentOKB du de = true := by
  cases du with
  | none => cases de <;> rfl
  | some x =>
    cases de with
    | none => rfl
    | some y =>
      simp only [checkTraitment] at h
      split_ifs at h with h1 h2 h3
      have h1' : f32gt x 120 = false := by
        cases hfx : f32gt x 120
        · rfl
        · exact absurd hfx h1
      simp [traitmentOKB, h1']
      omega

theorem mkGate_traitment (dshort : ℤ) (a1 : RawA1) (a2 : RawA2) :
    gateTraitmentOK (mkGate dshort a1 a2) = traitmentOKB a2.duree a2.decal := rfl

theorem mkGate_qcWind (dshort : ℤ) (a1 : RawA1) (a2 : RawA2) :
    (mkGate dshort a1 a2).qcFlagWind = qc_flag_wind_of dshort := rfl

/-! ### Revision facts -/

theorem tight_of_gt543 : ∀ r : Rev, 543 < pv100 r → tightOps (trailOps r) = true := by
  intro r
  cases r <;> decide

theorem rev_gt543 : ∀ r : Rev, 543 < pv100 r →
    r = Rev.v545 ∨ r = Rev.v747 ∨ r = Rev.v749 := by
  intro r
  cases r <;> decide

theorem markerOf_lt_25 (r : Rev) : markerOf r < 25 := by
  cases r <;> decide

theorem resolveRev_ge25 (m : Nat) (hm : 25 ≤ m) : resolveRev m = none := by
  have n1 : ¬(m = 5) := by omega
  have n2 : ¬(m = 6) := by omega
  have n3 : ¬(m = 7) := by omega
  have n4 : ¬(m = 8) := by omega
  have n5 : ¬(m = 10) := by omega
  have n6 : ¬(m = 11) := by omega
  have n7 : ¬(m = 13) := by omega
  have n8 : ¬(m = 14) := by omega
  have n9 : ¬(m = 16) := by omega
  have n10 : ¬(m = 19) := by omega
  have n11 : ¬(m = 21) := by omega
  have n12 : ¬(m = 22) := by omega
  have n13 : ¬(m = 24) := by omega
  simp [resolveRev, n1, n2, n3, n4, n5, n6, n7, n8, n9, n10, n11, n12, n13]

theorem resolveRev_eq_some_iff (m : Nat) (r : Rev) :
    resolveRev m = some r ↔ m = markerOf r := by
  by_cases hm : m < 25
  · have hall : ∀ m' : Fin 25, ∀ r' : Rev,
        resolveRev m'.val = some r' ↔ m'.val = markerOf r' := by decide
    simpa using hall ⟨m, hm⟩ r
  · rw [resolveRev_ge25 m (by omega)]
    constructor
    · intro h
      exact absurd h (by simp)
    · intro h
      have := markerOf_lt_25 r
      omega

theorem resolveRevE_ok_iff (m : Nat) (r : Rev) :
    resolveRevE m = Except.ok r ↔ m = markerOf r := by
  unfold resolveRevE
  cases hres : resolveRev m with
  | some r0 =>
    constructor
    · intro h
      have h1 : Except.ok (ε := DecodeErr) r0 = Except.ok r := h
      have h2 : r0 = r := by injection h1
      subst h2
      exact (resolveRev_eq_some_iff m r0).mp hres
    · intro h
      have h2 := (resolveRev_eq_some_iff m r).mpr h
      rw [hres] at h2
      have h3 : r0 = r := by injection h2
      subst h3
      rfl
  | none =>
    constructor
    · intro h
      exact absurd h (by simp)
    · intro h
      have h2 := (resolveRev_eq_some_iff m r).mpr h
      rw [hres] at h2
      exact absurd h2 (by simp)

theorem resolveRevE_unknown (m : Nat) (hm : m ∉ knownMarkers) :
    resolveRevE m = Except.error (DecodeErr.unknownRevision m) := by
  have hm' : m ≠ 5 ∧ m ≠ 6 ∧ m ≠ 7 ∧ m ≠ 8 ∧ m ≠ 10 ∧ m ≠ 11 ∧ m ≠ 13 ∧ m ≠ 14 ∧
      m ≠ 16 ∧ m ≠ 19 ∧ m ≠ 21 ∧ m ≠ 22 ∧ m ≠ 24 := by
    simpa [knownMarkers] using hm
  obtain ⟨k1, k2, k3, k4, k5, k6, k7, k8, k9, k10, k11, k12, k13⟩ := hm'
  unfold resolveRevE resolveRev
  split_ifs with h1 h2 h3 h4 h5 h6 h7 h8 h9 h10 h11 h12 h13
  all_goals first
  | rfl
  | (exfalso; omega)

/-! ### The concrete decode of `demoBuf` -/

theorem demo_decode_gates :
    decodeGates Rev.v749 true 0 demoBuf 1 0 = Except.ok ([demoGate], 468) := by
  rfl

theorem demo_decode_profile :
    decodeProfile Rev.v749 true demoBuf 0 1 0 = Except.ok demoProf := by
  rfl

/-! ### Claims -/

/-- C1: the format revision is resolved from the 16-bit little-endian marker at
bytes 8-9 of the preamble, first negated as an unsigned 16-bit value; the
thirteen known negated markers 5, 6, 7, 8, 10, 11, 13, 14, 16, 19, 21, 22, 24
map respectively to the revisions "1.2", "2.0", "2.1", "2.2", "3.31", "5.34",
"5.36", "5.37", "5.39", "5.43", "5.45", "7.47", "7.49", and any other negated
marker makes the decode fail without returning a result. -/
theorem c1_format_revision :
    (∀ b : List Nat, version_no b = byteAt b 8 + 256 * byteAt b 9) ∧
    (∀ r : Rev, ∀ b : List Nat,
      resolveRevE (convert_version_no_uint (version_no b)) = Except.ok r ↔
        convert_version_no_uint (version_no b) = markerOf r) ∧
    (∀ b : List Nat, convert_version_no_uint (version_no b) ∉ knownMarkers →
      resolveRevE (convert_version_no_uint (version_no b)) =
        Except.error (DecodeErr.unknownRevision (convert_version_no_uint (version_no b)))) ∧
    allRevs.map (fun r => (markerOf r, revString r)) =
      [(5, "1.2"), (6, "2.0"), (7, "2.1"), (8, "2.2"), (10, "3.31"), (11, "5.34"),
       (13, "5.36"), (14, "5.37"), (16, "5.39"), (19, "5.43"), (21, "5.45"),
       (22, "7.47"), (24, "7.49")] := by
  refine ⟨?_, ?_, ?_, ?_⟩
  · intro b
    simp [version_no, wordLE]
  · intro r b
    exact resolveRevE_ok_iff _ r
  · intro b hb
    exact resolveRevE_unknown _ hb
  · rfl

/-- Witness for C1: bytes 8-9 holding 0xFBFF give version marker 65531, whose
unsigned-16-bit negation is 5 and resolves to revision "1.2"; an all-zero
preamble gives negated marker 0, which is unknown and fails. -/
theorem c1_format_revision_witness :
    resolveRevE (convert_version_no_uint (version_no [0, 0, 0, 0, 0, 0, 0, 0, 251, 255])) =
      Except.ok Rev.v12 ∧
    resolveRevE (convert_version_no_uint (version_no (List.replicate 10 0))) =
      Except.error (DecodeErr.unknownRevision
        (convert_version_no_uint (version_no (List.replicate 10 0)))) :=
  ⟨(c1_format_revision.2.1 Rev.v12 [0, 0, 0, 0, 0, 0, 0, 0, 251, 255]).mpr (by decide),
   c1_format_revision.2.2.1 (List.replicate 10 0) (by decide)⟩

/-- C2: the sentinel `999999` maps to missing (NaN), never to the literal
number; the substitution is idempotent (a missing value stays missing); and in
every successfully decoded gate array no stored measurement field equals the
literal `999999`. -/
theorem c2_sentinel :
    sentinelMap (F32.finite 999999) = F32.nan ∧
    (∀ v : F32, sentinelMap (sentinelMap v) = sentinelMap v) ∧
    (∀ (r : Rev) (vt : Bool) (dshort : ℤ) (b : List Nat) (n p : Nat)
        (gs : List Gate) (pe : Nat),
      decodeGates r vt dshort b n p = Except.ok (gs, pe) →
      gs.all gateNoSentinel = true) := by
  refine ⟨rfl, ?_, ?_⟩
  · intro v
    by_cases h : v = F32.finite 999999 <;> simp [sentinelMap, h]
  · intro r vt dshort b n p gs pe h
    refine decodeGates_all (fun q gg q' hg => ?_) h
    obtain ⟨-, hmk, -, -⟩ := decodeGate_ok hg
    rw [hmk]
    exact mkGate_noSentinel _ _ _

/-- Witness for C2: a raw `999999` float pattern decodes to the finite sentinel
and is mapped to NaN, and the concrete decoded gate array of `demoBuf` holds no
literal sentinel. -/
theorem c2_sentinel_witness :
    bin_to_float32 1232348144 = F32.finite 999999 ∧
    List.all [demoGate] gateNoSentinel = true :=
  ⟨by decide,
   c2_sentinel.2.2 Rev.v749 true 0 demoBuf 1 0 [demoGate] 468 demo_decode_gates⟩

/-- C5: a per-beam quality flag is 1 exactly when the raw per-beam validation
code is 1, and is 3 for every other raw code (the `999999` sentinel included);
the value 2 is never produced. -/
theorem c5_quality_flags :
    (∀ c : ℤ, qc_flag_of_validation c = (if c = 1 then 1 else 3) ∧
      qc_flag_of_validation c ≠ 2) ∧
    (∀ (r : Rev) (vt : Bool) (dshort : ℤ) (b : List Nat) (n p : Nat)
        (gs : List Gate) (pe : Nat),
      decodeGates r vt dshort b n p = Except.ok (gs, pe) →
      gs.all gateFlagsOK = true) := by
  constructor
  · intro c
    refine ⟨qc_flag_spec c, ?_⟩
    rw [qc_flag_spec]
    split_ifs <;> norm_num
  · intro r vt dshort b n p gs pe h
    refine decodeGates_all (fun q gg q' hg => ?_) h
    obtain ⟨-, hmk, -, -⟩ := decodeGate_ok hg
    rw [hmk]
    exact mkGate_flagsOK _ _ _

/-- Witness for C5: the sentinel validation code 999999 maps to flag 3 and not
to 2, and every beam flag of the concrete decoded gate of `demoBuf` agrees with
its validation code. -/
theorem c5_quality_flags_witness :
    (qc_flag_of_validation 999999 = (if (999999 : ℤ) = 1 then 1 else 3) ∧
      qc_flag_of_validation 999999 ≠ 2) ∧
    List.all [demoGate] gateFlagsOK = true :=
  ⟨c5_quality_flags.1 999999,
   c5_quality_flags.2 Rev.v749 true 0 demoBuf 1 0 [demoGate] 468 demo_decode_gates⟩

/-- C8 counterexample: the claim says signed fields are decoded as standard
two's complement, so the 16-bit pattern 0xFFFF would decode to -1; the source's
sign-and-magnitude string decode yields -32767 instead. -/
theorem c8_counterexample :
    signed16 65535 = -32767 ∧ twosComplement16 65535 = -1 ∧ signed16 65535 ≠ -1 := by
  decide

/-- C8 (amended): every signed 16-bit and 32-bit field is decoded by
sign-and-magnitude - the top bit selects the sign and the remaining bits are
the magnitude - which agrees with two's complement exactly on patterns whose
top bit is clear; 0xFFFF decodes to -32767, not -1. -/
theorem c8_sign_magnitude :
    (∀ w : Nat, signed16 w =
      (if w % 2^16 < 2^15 then ((w % 2^16 : ℕ) : ℤ) else -((w % 2^16 - 2^15 : ℕ) : ℤ))) ∧
    (∀ w : Nat, w % 2^16 < 2^15 → signed16 w = twosComplement16 w) ∧
    (∀ w : Nat, signed32 w =
      (if w % 2^32 < 2^31 then ((w % 2^32 : ℕ) : ℤ) else -((w % 2^32 - 2^31 : ℕ) : ℤ))) ∧
    (∀ w : Nat, w % 2^32 < 2^31 → signed32 w = twosComplement32 w) := by
  refine ⟨?_, ?_, ?_, ?_⟩
  · intro w
    unfold signed16
    split_ifs with h1 h2 <;> push_cast <;> omega
  · intro w hw
    unfold signed16 twosComplement16
    split_ifs with h1 h2 <;> push_cast <;> omega
  · intro w
    unfold signed32
    split_ifs with h1 h2 <;> push_cast <;> omega
  · intro w hw
    unfold signed32 twosComplement32
    split_ifs with h1 h2 <;> push_cast <;> omega

/-- Witness for C8 (amended): concrete instances of the sign-and-magnitude
characterization and of the agreement on clear-top-bit patterns. -/
theorem c8_sign_magnitude_witness :
    signed16 65535 =
      (if 65535 % 2^16 < 2^15 then ((65535 % 2^16 : ℕ) : ℤ)
       else -((65535 % 2^16 - 2^15 : ℕ) : ℤ)) ∧
    signed16 100 = twosComplement16 100 ∧
    signed32 7 = twosComplement32 7 :=
  ⟨c8_sign_magnitude.1 65535,
   c8_sign_magnitude.2.1 100 (by norm_num),
   c8_sign_magnitude.2.2.2 7 (by norm_num)⟩

/-- C6: the in-loop validity checks fail with an error naming the field, its
value and the violated bound whenever the decoded `m_dureeTraitment` exceeds
120 or `m_DecalageTraitment` lies outside [0, 60]; in particular a decoded
`m_dureeTraitment` of 121 always fails naming that field and the bound 120;
and every successfully decoded gate satisfies the bounds (no record is
returned otherwise). -/
theorem c6_out_of_range :
    (∀ (du : F32) (de : ℤ), f32gt du 120 = true →
      checkTraitment (some du) (some de) =
        Except.error (DecodeErr.outOfRange "m_dureeTraitment" du 120)) ∧
    (∀ de : ℤ, checkTraitment (some (F32.finite 121)) (some de) =
      Except.error (DecodeErr.outOfRange "m_dureeTraitment" (F32.finite 121) 120)) ∧
    (∀ (du : F32) (de : ℤ), f32gt du 120 = false → de < 0 →
      checkTraitment (some du) (some de) =
        Except.error (DecodeErr.outOfRange "m_DecalageTraitment" (F32.finite (de : ℚ)) 0)) ∧
    (∀ (du : F32) (de : ℤ), f32gt du 120 = false → 60 < de →
      checkTraitment (some du) (some de) =
        Except.error (DecodeErr.outOfRange "m_DecalageTraitment" (F32.finite (de : ℚ)) 60)) ∧
    (∀ (r : Rev) (vt : Bool) (dshort : ℤ) (b : List Nat) (n p : Nat)
        (gs : List Gate) (pe : Nat),
      decodeGates r vt dshort b n p = Except.ok (gs, pe) →
      gs.all gateTraitmentOK = true) := by
  refine ⟨?_, ?_, ?_, ?_, ?_⟩
  · intro du de h
    simp [checkTraitment, h]
  · intro de
    have h : f32gt (F32.finite 121) 120 = true := by decide
    simp [checkTraitment, h]
  · intro du de h1 h2
    simp [checkTraitment, h1, h2]
  · intro du de h1 h2
    have h3 : ¬de < 0 := by omega
    simp [checkTraitment, h1, h2, h3]
  · intro r vt dshort b n p gs pe h
    refine decodeGates_all (fun q gg q' hg => ?_) h
    obtain ⟨-, hmk, hchk, -⟩ := decodeGate_ok hg
    rw [hmk, mkGate_traitment]
    exact checkTraitment_ok_iff hchk

/-- Witness for C6: the concrete value 121 fails naming `m_dureeTraitment` and
the bound 120, update rate -1 fails naming `m_DecalageTraitment` and the bound
0, and the concrete decoded gate of `demoBuf` satisfies the bounds. -/
theorem c6_out_of_range_witness :
    checkTraitment (some (F32.finite 121)) (some 0) =
      Except.error (DecodeErr.outOfRange "m_dureeTraitment" (F32.finite 121) 120) ∧
    checkTraitment (some (F32.finite 0)) (some (-1)) =
      Except.error (DecodeErr.outOfRange "m_DecalageTraitment"
        (F32.finite ((-1 : ℤ) : ℚ)) 0) ∧
    List.all [demoGate] gateTraitmentOK = true :=
  ⟨c6_out_of_range.2.1 0,
   c6_out_of_range.2.2.1 (F32.finite 0) (-1) (by decide) (by decide),
   c6_out_of_range.2.2.2.2 Rev.v749 true 0 demoBuf 1 0 [demoGate] 468 demo_decode_gates⟩

/-- C7: a decode that returns a profile always covers exactly `no_heights`
gates, and its buffer holds every byte of gate records that `no_heights`
implies (`no_heights * gateSize` bytes from the gate-array start); hence a
buffer with fewer bytes than the declared gate count implies can only fail,
never silently truncate the gate array. -/
theorem c7_truncation :
    ∀ (r : Rev) (vt : Bool) (b : List Nat) (p n : Nat) (rain : ℤ) (prof : Profile),
      decodeProfile r vt b p n rain = Except.ok prof →
      prof.gates.length = n ∧ (0 < n → p + n * gateSize r vt ≤ b.length) := by
  intro r vt b p n rain prof h
  unfold decodeProfile at h
  cases hG : decodeGates r vt 0 b n p with
  | error e => simp [hG] at h
  | ok gspe =>
    obtain ⟨gs, pe⟩ := gspe
    simp only [hG] at h
    by_cases hcond : (200 ≤ pv100 r ∧ 310 ≤ pv100 r ∧ 543 < pv100 r)
    · rw [if_pos hcond] at h
      have h2 : Except.ok (ε := DecodeErr)
          ({ gates := gs, qcFlagRainDetected := rain + 1 } : Profile) = Except.ok prof := h
      have h3 : ({ gates := gs, qcFlagRainDetected := rain + 1 } : Profile) = prof := by
        injection h2
      obtain ⟨hlen, -, htight⟩ := decodeGates_ok hG
      have hgates : prof.gates = gs := by rw [← h3]
      refine ⟨by rw [hgates, hlen], ?_⟩
      intro hn
      exact htight (tight_of_gt543 r hcond.2.2) hn
    · rw [if_neg hcond] at h
      simp at h

/-- Witness for C7: the 468-byte `demoBuf` decodes to exactly one gate and
covers the full implied gate-record bytes. -/
theorem c7_truncation_witness :
    demoProf.gates.length = 1 ∧
    (0 < 1 → 0 + 1 * gateSize Rev.v749 true ≤ demoBuf.length) :=
  c7_truncation Rev.v749 true demoBuf 0 1 0 demoProf demo_decode_profile

/-- C9: the overall wind flag compares the loop-level lowercase `dshort`
variable - initialized to 0 and never reassigned (the value read from the file
is bound to the distinct name `dShort`) - against 1, so the flag of every gate
of every successfully decoded profile equals 3 and the "good" branch is
unreachable. -/
theorem c9_qc_flag_wind :
    qc_flag_wind_of 0 = 3 ∧
    (∀ (r : Rev) (vt : Bool) (b : List Nat) (p n : Nat) (rain : ℤ) (prof : Profile),
      decodeProfile r vt b p n rain = Except.ok prof →
      prof.gates.all (fun g => g.qcFlagWind == 3) = true) := by
  constructor
  · rfl
  · intro r vt b p n rain prof h
    unfold decodeProfile at h
    cases hG : decodeGates r vt 0 b n p with
    | error e => simp [hG] at h
    | ok gspe =>
      obtain ⟨gs, pe⟩ := gspe
      simp only [hG] at h
      by_cases hcond : (200 ≤ pv100 r ∧ 310 ≤ pv100 r ∧ 543 < pv100 r)
      · rw [if_pos hcond] at h
        have h2 : Except.ok (ε := DecodeErr)
            ({ gates := gs, qcFlagRainDetected := rain + 1 } : Profile) = Except.ok prof := h
        have h3 : ({ gates := gs, qcFlagRainDetected := rain + 1 } : Profile) = prof := by
          injection h2
        have hgates : prof.gates = gs := by rw [← h3]
        rw [hgates]
        refine decodeGates_all (fun q gg q' hg => ?_) hG
        obtain ⟨-, hmk, -, -⟩ := decodeGate_ok hg
        rw [hmk]
        rfl
      · rw [if_neg hcond] at h
        simp at h

/-- Witness for C9: the wind flag of the concrete decoded gate of `demoBuf`
is 3. -/
theorem c9_qc_flag_wind_witness :
    demoProf.gates.all (fun g => g.qcFlagWind == 3) = true :=
  c9_qc_flag_wind.2 Rev.v749 true demoBuf 0 1 0 demoProf demo_decode_profile

/-- C10: for every resolved revision at most 5.43 (scaled: `pv100 r ≤ 543`,
i.e. "1.2" through "5.43") the decode never returns a profile, because
`qc_flag_rain_detected = rain_detection + 1` is assembled from a
`rain_detection` variable that is bound only when the program version exceeds
5.43; a successful decode forces the revision to be "5.45", "7.47" or "7.49"
and stores `rain_detection + 1`. -/
theorem c10_rain_detection :
    (∀ r : Rev, pv100 r ≤ 543 → ∀ (vt : Bool) (b : List Nat) (p n : Nat) (rain : ℤ),
      isOkE (decodeProfile r vt b p n rain) = false) ∧
    (∀ (r : Rev) (vt : Bool) (b : List Nat) (p n : Nat) (rain : ℤ) (prof : Profile),
      decodeProfile r vt b p n rain = Except.ok prof →
      (r = Rev.v545 ∨ r = Rev.v747 ∨ r = Rev.v749) ∧
        prof.qcFlagRainDetected = rain + 1) ∧
    (∀ r : Rev, pv100 r ≤ 543 ↔
      r ∈ [Rev.v12, Rev.v20, Rev.v21, Rev.v22, Rev.v331, Rev.v534, Rev.v536,
           Rev.v537, Rev.v539, Rev.v543]) := by
  refine ⟨?_, ?_, ?_⟩
  · intro r hr vt b p n rain
    unfold decodeProfile
    cases hG : decodeGates r vt 0 b n p with
    | error e => rfl
    | ok gspe =>
      obtain ⟨gs, pe⟩ := gspe
      have hcond : ¬(200 ≤ pv100 r ∧ 310 ≤ pv100 r ∧ 543 < pv100 r) := by
        intro hc
        omega
      simp only [hcond, if_false]
      rfl
  · intro r vt b p n rain prof h
    unfold decodeProfile at h
    cases hG : decodeGates r vt 0 b n p with
    | error e => simp [hG] at h
    | ok gspe =>
      obtain ⟨gs, pe⟩ := gspe
      simp only [hG] at h
      by_cases hcond : (200 ≤ pv100 r ∧ 310 ≤ pv100 r ∧ 543 < pv100 r)
      · rw [if_pos hcond] at h
        have h2 : Except.ok (ε := DecodeErr)
            ({ gates := gs, qcFlagRainDetected := rain + 1 } : Profile) = Except.ok prof := h
        have h3 : ({ gates := gs, qcFlagRainDetected := rain + 1 } : Profile) = prof := by
          injection h2
        refine ⟨rev_gt543 r hcond.2.2, ?_⟩
        rw [← h3]
      · rw [if_neg hcond] at h
        simp at h
  · intro r
    cases r <;> decide

/-- Witness for C10: revision "5.43" never yields a profile, and the
successful revision-7.49 decode of `demoBuf` stores `rain_detection + 1`. -/
theorem c10_rain_detection_witness :
    isOkE (decodeProfile Rev.v543 true (List.replicate 10000 0) 0 1 0) = false ∧
    ((Rev.v749 = Rev.v545 ∨ Rev.v749 = Rev.v747 ∨ Rev.v749 = Rev.v749) ∧
      demoProf.qcFlagRainDetected = 0 + 1) :=
  ⟨c10_rain_detection.1 Rev.v543 (by decide) true (List.replicate 10000 0) 0 1 0,
   c10_rain_detection.2.1 Rev.v749 true demoBuf 0 1 0 demoProf demo_decode_profile⟩

/-- C3: for non-missing components with a nonzero north component, the stored
wind direction follows exactly the claimed formula - `atan(-u / -v)` in
degrees, plus 360 if negative, plus a further 180 exactly when `u > 0`,
`v > 0` and the direction so far is below 90 - and the stored wind speed is
`sqrt(u^2 + v^2)` (the floating-point rounding of the 32-bit store is
abstracted to exact reals). -/
theorem c3_wind_formula :
    ∀ u v : ℝ, v ≠ 0 →
      wp_winddir u v = winddirClaim u v ∧
      wp_windspeed u v = Real.sqrt (u ^ 2 + v ^ 2) := by
  intro u v hv
  constructor
  · rfl
  · unfold wp_windspeed
    rw [show (0.5 : ℝ) = 1 / 2 by norm_num, ← Real.sqrt_eq_rpow]

/-- Witness for C3 at `u = 1`, `v = 1`. -/
theorem c3_wind_formula_witness :
    wp_winddir 1 1 = winddirClaim 1 1 ∧
    wp_windspeed 1 1 = Real.sqrt (1 ^ 2 + 1 ^ 2) :=
  c3_wind_formula 1 1 (by norm_num)

/-- The value the source stores for `u = 3`, `v = 4`: the base angle
`atan(3/4)` in degrees lies in [0, 90), so no +360 shift applies, but the
quadrant correction (`u > 0`, `v > 0`, direction < 90) does, adding 180. -/
theorem wp_winddir_34 :
    wp_winddir 3 4 = Real.arctan (3 / 4) * (180 / Real.pi) + 180 := by
  have hd : ((-3 : ℝ)) / (-4 : ℝ) = 3 / 4 := by norm_num
  have hpi : (0 : ℝ) < Real.pi := Real.pi_pos
  have ha0 : 0 ≤ Real.arctan (3 / 4) := by
    rw [← Real.arctan_zero]
    exact Real.arctan_strictMono.le_iff_le.mpr (by norm_num)
  have hb0 : 0 ≤ Real.arctan (3 / 4) * (180 / Real.pi) := by positivity
  have hlt : Real.arctan (3 / 4) * (180 / Real.pi) < 90 := by
    have h1 : Real.arctan (3 / 4) < Real.pi / 2 := Real.arctan_lt_pi_div_two _
    have h2 : Real.arctan (3 / 4) * (180 / Real.pi) <
        (Real.pi / 2) * (180 / Real.pi) := by
      apply mul_lt_mul_of_pos_right h1
      positivity
    have h3 : (Real.pi / 2) * (180 / Real.pi) = 90 := by
      field_simp
      ring
    linarith
  simp only [wp_winddir]
  rw [hd]
  rw [if_neg (not_lt.mpr hb0)]
  rw [if_pos ⟨by norm_num, by norm_num, hlt⟩]

/-- C4 counterexample: at `u_east = 3`, `v_north = 4` the claim's direction -
`atan(-3 / -4)` in degrees normalized into [0, 360), i.e. about 36.87 - is not
what the decoder stores: the quadrant correction applies (u > 0, v > 0,
direction < 90), so the stored direction is about 216.87. -/
theorem c4_counterexample :
    ¬(wp_windspeed 3 4 = 5 ∧
      wp_winddir 3 4 = Real.arctan ((-3 : ℝ) / (-4 : ℝ)) * (180 / Real.pi)) := by
  intro hc
  obtain ⟨-, hd⟩ := hc
  rw [wp_winddir_34, show ((-3 : ℝ)) / (-4 : ℝ) = 3 / 4 by norm_num] at hd
  linarith

/-- C4 (amended): at `u_east = 3`, `v_north = 4` the stored wind speed is 5 and
the stored wind direction is `atan(-3 / -4)` in degrees plus the 180-degree
quadrant correction, about 216.87 degrees. -/
theorem c4_amended :
    wp_windspeed 3 4 = 5 ∧
    wp_winddir 3 4 = Real.arctan (3 / 4) * (180 / Real.pi) + 180 := by
  constructor
  · unfold wp_windspeed
    rw [show (0.5 : ℝ) = 1 / 2 by norm_num, ← Real.sqrt_eq_rpow]
    rw [show ((3 : ℝ) ^ 2 + (4 : ℝ) ^ 2) = 5 ^ 2 by norm_num]
    exact Real.sqrt_sq (by norm_num)
  · exact wp_winddir_34

end WP

